import Mathlib

/-
  Verification development for the calorieWeb nutrition normalization and
  aggregation engine.

  The repository ships several historical revisions of its nutrient
  extraction code:
    * src/backend/usda.js            (extractNutrients, adjustNutrients)
    * src/backend/ai.js              (embedded search-results revision of
                                      extractNutrients with the superset
                                      identifier map and running-max policy)
    * src/shell.nix                  (embedded revision keyed on
                                      nutrientNumber with fiber/sugar/kJ
                                      fallbacks)
  together with the frontend quantity scaler
  (src/calorie-track/src/components/EntryForm.jsx, getAdjustedNutrition),
  the goal classifier (src/calorie-track/src/components/Analysis.jsx) and
  the dense daily aggregation
  (src/calorie-track/src/components/HistoricalTrends.jsx, loadTrendData).

  Numbers are modeled as rationals; JavaScript Math.round(x) is
  floor(x + 1/2), matching its round-half-up behavior. Calendar dates are
  modeled as integer day numbers (ISO date strings are order-isomorphic to
  days; the JS loop `d.setDate(d.getDate() + 1)` advances one calendar
  day per iteration). An observation record keeps one identifier field per
  revision, standing for the chain of JS property accesses
  (nutrient.nutrient?.id || nutrient.nutrientId, etc.) that all yield the
  observation identifier.
-/

/-- JavaScript Math.round: floor (x + 1/2), rounding halves toward +infinity. -/
def jsRound (q : ℚ) : ℤ := ⌊q + 1/2⌋

/-- Math.round(x * 10) / 10: round to one decimal place. -/
def round1 (q : ℚ) : ℚ := (jsRound (q * 10) : ℚ) / 10

/-- JavaScript `a || b` for an optional numeric a: the JS value when present
and truthy (nonzero), else b. -/
def jsOr (a : Option ℚ) (b : ℚ) : ℚ :=
  match a with
  | some x => if x = 0 then b else x
  | none => b

/-- The canonical profile {calories, protein, fat, carbs}. -/
structure NutrientProfile where
  calories : ℚ
  protein : ℚ
  fat : ℚ
  carbs : ℚ
deriving DecidableEq, Repr

def zeroProfile : NutrientProfile := ⟨0, 0, 0, 0⟩

/-- The four canonical target fields of the extraction maps. -/
inductive NutrientField
  | calories
  | protein
  | fat
  | carbs
deriving DecidableEq, Repr

/-- Read one canonical field of a profile. -/
def NutrientProfile.field (st : NutrientProfile) : NutrientField → ℚ
  | .calories => st.calories
  | .protein => st.protein
  | .fat => st.fat
  | .carbs => st.carbs

/-- usda.js: `nutrients[field] = Math.max(0, Math.round(value * 10) / 10)`
(the assignment overwrites the field; the max is against 0, not against the
current field value). -/
def overwriteField (st : NutrientProfile) (f : NutrientField) (x : ℚ) : NutrientProfile :=
  match f with
  | .calories => { st with calories := max 0 x }
  | .protein => { st with protein := max 0 x }
  | .fat => { st with fat := max 0 x }
  | .carbs => { st with carbs := max 0 x }

/-- ai.js search revision:
`nutrients[field] = Math.max(nutrients[field], Math.round(value * 10) / 10)`. -/
def maxField (st : NutrientProfile) (f : NutrientField) (x : ℚ) : NutrientProfile :=
  match f with
  | .calories => { st with calories := max st.calories x }
  | .protein => { st with protein := max st.protein x }
  | .fat => { st with fat := max st.fat x }
  | .carbs => { st with carbs := max st.carbs x }

/-- Shared final step of every extractNutrients revision: if calories is 0
while some macro is truthy, estimate calories with the Atwater factors
(4 cal/g protein and carbs, 9 cal/g fat). -/
def calorieFallback (st : NutrientProfile) : NutrientProfile :=
  if st.calories = 0 ∧ (st.protein ≠ 0 ∨ st.fat ≠ 0 ∨ st.carbs ≠ 0) then
    { st with calories := (jsRound (st.protein * 4 + st.fat * 9 + st.carbs * 4) : ℚ) }
  else st

/- ===== src/backend/usda.js : extractNutrients ===== -/

/-- One foodNutrients element as read by usda.js: identifier from
`nutrient.nutrient?.id || nutrient.nutrientId`, plus optional
amount/value payloads. -/
structure UsdaObs where
  nutrientId : ℤ
  amount : Option ℚ
  value : Option ℚ
deriving DecidableEq, Repr

/-- The usda.js nutrientMap: 1008/1003/1004/1005 plus the alternate ids
203/204/205. Identifier 208 is absent from this revision. -/
def usdaResolve (id : ℤ) : Option NutrientField :=
  if id = 1008 then some .calories
  else if id = 1003 then some .protein
  else if id = 1004 then some .fat
  else if id = 1005 then some .carbs
  else if id = 203 then some .protein
  else if id = 204 then some .fat
  else if id = 205 then some .carbs
  else none

/-- Loop body of usda.js extractNutrients: guard on a present `value`,
read `nutrient.amount || nutrient.value || 0`, overwrite the field with
max(0, round-to-one-decimal). -/
def usdaStep (st : NutrientProfile) (o : UsdaObs) : NutrientProfile :=
  match usdaResolve o.nutrientId with
  | none => st
  | some f =>
    match o.value with
    | none => st
    | some _ =>
      let v := jsOr o.amount (jsOr o.value 0)
      overwriteField st f (round1 v)

/-- usda.js extractNutrients on a record's foodNutrients list. -/
def extractNutrientsUsda (obs : List UsdaObs) : NutrientProfile :=
  calorieFallback (obs.foldl usdaStep zeroProfile)

/- ===== src/backend/ai.js : embedded search-results extractNutrients ===== -/

/-- One foodNutrients element as read by the ai.js revision: identifier from
`String(nutrient.number || nutrient.nutrient?.id || nutrient.nutrientId)`,
guarded on a present `amount`. -/
structure AiObs where
  number : ℤ
  amount : Option ℚ
  value : Option ℚ
deriving DecidableEq, Repr

/-- The ai.js nutrientMap: superset of both numbering schemes
(208/1008, 203/1003, 204/1004, 205/1005) plus the 269 (sugars) and
291 (fiber) carb proxies. -/
def aiResolve (id : ℤ) : Option NutrientField :=
  if id = 208 ∨ id = 1008 then some .calories
  else if id = 203 ∨ id = 1003 then some .protein
  else if id = 204 ∨ id = 1004 then some .fat
  else if id = 205 ∨ id = 1005 ∨ id = 269 ∨ id = 291 then some .carbs
  else none

/-- Loop body of the ai.js revision: guard on a present `amount`, read
`parseFloat(nutrient.amount || nutrient.value || 0)`; when positive, a
fiber (291) observation is added onto carbs, every other resolved
observation is taken as a running maximum. -/
def aiStep (st : NutrientProfile) (o : AiObs) : NutrientProfile :=
  match aiResolve o.number with
  | none => st
  | some f =>
    match o.amount with
    | none => st
    | some _ =>
      let v := jsOr o.amount (jsOr o.value 0)
      if 0 < v then
        if f = NutrientField.carbs ∧ o.number = 291 then
          { st with carbs := st.carbs + round1 v }
        else
          maxField st f (round1 v)
      else st

/-- ai.js search revision of extractNutrients. -/
def extractNutrientsAi (obs : List AiObs) : NutrientProfile :=
  calorieFallback (obs.foldl aiStep zeroProfile)

/- ===== src/shell.nix : embedded extractNutrients revision ===== -/

/-- One foodNutrients element as read by the shell.nix revision:
identifier from `String(nutrient.nutrientNumber || '')`, value payload. -/
structure ShellObs where
  nutrientNumber : ℤ
  value : Option ℚ
deriving DecidableEq, Repr

/-- Targets of the shell.nix nutrientMap, including the fiber, sugars and
kJ-energy pseudo-fields. -/
inductive ShellField
  | calories
  | protein
  | fat
  | carbs
  | fiber
  | sugars
  | energyKj
deriving DecidableEq, Repr

/-- The shell.nix nutrientMap: compact numbers only. -/
def shellResolve (id : ℤ) : Option ShellField :=
  if id = 208 then some .calories
  else if id = 268 then some .energyKj
  else if id = 203 then some .protein
  else if id = 204 then some .fat
  else if id = 205 then some .carbs
  else if id = 269 then some .sugars
  else if id = 291 then some .fiber
  else none

/-- Loop body of the shell.nix revision: guard on a present `value`, read
`parseFloat(nutrient.value || 0)`; when nonnegative, calories are maximized
after integer rounding, macros after one-decimal rounding; fiber is added to
carbs only while carbs is exactly 0; sugars substitute for carbs only while
carbs is exactly 0; kJ energy converts at 4.184 only while calories is 0. -/
def shellStep (st : NutrientProfile) (o : ShellObs) : NutrientProfile :=
  match shellResolve o.nutrientNumber with
  | none => st
  | some f =>
    match o.value with
    | none => st
    | some _ =>
      let v := jsOr o.value 0
      if 0 ≤ v then
        match f with
        | .calories => { st with calories := max st.calories (jsRound v : ℚ) }
        | .protein => { st with protein := max st.protein (round1 v) }
        | .fat => { st with fat := max st.fat (round1 v) }
        | .carbs => { st with carbs := max st.carbs (round1 v) }
        | .fiber =>
          if st.carbs = 0 then { st with carbs := st.carbs + round1 v } else st
        | .sugars =>
          if st.carbs = 0 then { st with carbs := max st.carbs (round1 v) } else st
        | .energyKj =>
          if st.calories = 0 then
            { st with calories := (jsRound (v / (4184 / 1000)) : ℚ) }
          else st
      else st

/-- shell.nix revision of extractNutrients. -/
def extractNutrientsShell (obs : List ShellObs) : NutrientProfile :=
  calorieFallback (obs.foldl shellStep zeroProfile)

/- ===== src/backend/usda.js : adjustNutrients ===== -/

/-- usda.js adjustNutrients: `if (!nutrient) return null`, else scale a
per-100g profile by quantity/100, rounding calories to an integer and each
macro to one decimal place. -/
def adjustNutrients (nutrient : Option NutrientProfile) (quantity : ℚ) : Option NutrientProfile :=
  match nutrient with
  | none => none
  | some n =>
    let multiplier := quantity / 100
    some ⟨(jsRound (n.calories * multiplier) : ℚ),
          round1 (n.protein * multiplier),
          round1 (n.fat * multiplier),
          round1 (n.carbs * multiplier)⟩

/- ===== src/calorie-track/src/components/EntryForm.jsx :
         getAdjustedNutrition and its weight regex ===== -/

/-- Regex word character for the trailing word boundary: [A-Za-z0-9_]. -/
def isWordChar (c : Char) : Bool := c.isAlphanum || c = '_'

/-- Whitespace accepted by the regex \s between number and unit. -/
def isSpaceChar (c : Char) : Bool :=
  c = ' ' || c = '\t' || c = '\n' || c = '\r' || c = '\x0b' || c = '\x0c'

/-- Decimal digit run to a natural number. -/
def digitsToNat (ds : List Char) : ℕ :=
  ds.foldl (fun acc c => acc * 10 + (c.toNat - '0'.toNat)) 0

/-- parseFloat of the captured number: integer digits, optional dot,
fractional digits. -/
def numValue (intPart fracPart : List Char) : ℚ :=
  (digitsToNat intPart : ℚ) + (digitsToNat fracPart : ℚ) / (10 ^ fracPart.length)

/-- Word boundary \b directly after the unit token. -/
def atBoundary : List Char → Bool
  | [] => true
  | c :: _ => !(isWordChar c)

/-- The second capture group of the weight regex. -/
inductive WeightUnit
  | g
  | kg
  | mg
deriving DecidableEq, Repr

/-- Gram multiplier of the matched unit in getAdjustedNutrition: kg
multiplies by 1000, mg divides by 1000, g is taken as-is. -/
def unitMult : WeightUnit → ℚ
  | .g => 1
  | .kg => 1000
  | .mg => 1 / 1000

/-- The unit alternation (g|kg|mg) with its trailing word boundary. The
three alternatives start with distinct characters, so the regex
alternation order does not matter. -/
def matchUnit : List Char → Option WeightUnit
  | 'k' :: 'g' :: rest => if atBoundary rest then some .kg else none
  | 'm' :: 'g' :: rest => if atBoundary rest then some .mg else none
  | 'g' :: rest => if atBoundary rest then some .g else none
  | _ => none

/-- Attempt the pattern (\d+\.?\d*)\s*(g|kg|mg)\b at the head of the
character list; on success return the number capture (integer digits and
fractional digits, which parseFloat evaluates) and the unit capture.
Greedy matching of the digit and space runs is without loss: shortening a
run leaves a digit or space where the unit letter must be, which cannot
match. -/
def matchWeightAt (cs : List Char) : Option (List Char × List Char × WeightUnit) :=
  let intDigits := cs.takeWhile Char.isDigit
  if intDigits.isEmpty then none
  else
    let rest1 := cs.dropWhile Char.isDigit
    let fracRest : List Char × List Char :=
      match rest1 with
      | '.' :: t => (t.takeWhile Char.isDigit, t.dropWhile Char.isDigit)
      | _ => ([], rest1)
    let rest2 := fracRest.2.dropWhile isSpaceChar
    match matchUnit rest2 with
    | some u => some (intDigits, fracRest.1, u)
    | none => none

/-- Leftmost regex match: try each start position from the left, as the JS
regex engine does. -/
def findWeight : List Char → Option (List Char × List Char × WeightUnit)
  | [] => none
  | c :: t =>
    match matchWeightAt (c :: t) with
    | some m => some m
    | none => findWeight t

/-- Scale a per-100g profile to the given gram weight; every field,
calories included, is rounded to one decimal place
(`Math.round(... * ratio * 10) / 10` in EntryForm.jsx). -/
def scaleProfile (base : NutrientProfile) (grams : ℚ) : NutrientProfile :=
  let ratio := grams / 100
  ⟨round1 (base.calories * ratio),
   round1 (base.protein * ratio),
   round1 (base.fat * ratio),
   round1 (base.carbs * ratio)⟩

/-- EntryForm.jsx getAdjustedNutrition on the USDA-selection path: match
`/(\d+\.?\d*)\s*(g|kg|mg)\b/` against the lowercased quantity string; with
no match, return the profile unchanged; otherwise rescale by grams/100.
(The leading selectedFood guard, which also returns the profile unchanged,
is component state outside the scaling logic.) -/
def getAdjustedNutrition (base : NutrientProfile) (quantity : String) : NutrientProfile :=
  match findWeight (quantity.toList.map Char.toLower) with
  | none => base
  | some (intPart, fracPart, u) =>
    scaleProfile base (numValue intPart fracPart * unitMult u)

/- ===== src/calorie-track/src/components/Analysis.jsx :
         goal percentage and status badge ===== -/

/-- The status badge rendered by Analysis.jsx. -/
inductive GoalBadge
  | under
  | onTrack
  | over
deriving DecidableEq, Repr

/-- Analysis.jsx: `Math.round((total / CALORIE_GOAL) * 100)`, with the goal
as a parameter (the component fixes CALORIE_GOAL = 2000). -/
def goalPercentage (total goal : ℚ) : ℤ := jsRound (total / goal * 100)

/-- Analysis.jsx status badge chain:
`percentage < 80 ? under : percentage <= 110 ? on-track : over`. -/
def goalBadge (p : ℤ) : GoalBadge :=
  if p < 80 then .under else if p ≤ 110 then .onTrack else .over

/-- A (percentage, status) pair as displayed in the Quick Stats card. -/
structure GoalStatus where
  percentage : ℤ
  status : GoalBadge
deriving DecidableEq, Repr

/-- The goal-status classification of a (total, goal) pair. -/
def classify (total goal : ℚ) : GoalStatus :=
  ⟨goalPercentage total goal, goalBadge (goalPercentage total goal)⟩

/- ===== src/calorie-track/src/components/HistoricalTrends.jsx :
         loadTrendData dense fill ===== -/

/-- One row of the backend GET /api/summary response (sparse, grouped by
date); nutrient fields optional to mirror the `item.totalCalories || 0`
normalization. Dates are integer day numbers. -/
structure SummaryRow where
  date : ℤ
  totalCalories : Option ℚ
  totalProtein : Option ℚ
  totalFat : Option ℚ
  totalCarbs : Option ℚ
  entryCount : Option ℕ
deriving DecidableEq, Repr

/-- The DailySummary shape held in the dense series. -/
structure DailySummary where
  date : ℤ
  totalCalories : ℚ
  totalProtein : ℚ
  totalFat : ℚ
  totalCarbs : ℚ
  entryCount : ℕ
deriving DecidableEq, Repr

/-- The `dateMap.set(item.date, {... || 0})` normalization of one row. -/
def normalizeRow (r : SummaryRow) : DailySummary :=
  ⟨r.date, r.totalCalories.getD 0, r.totalProtein.getD 0,
   r.totalFat.getD 0, r.totalCarbs.getD 0, r.entryCount.getD 0⟩

/-- Lookup in the JS Map built by `data.forEach(item => dateMap.set(...))`:
a later row with the same date overwrites an earlier one. -/
def dateMapLookup (rows : List SummaryRow) (d : ℤ) : Option DailySummary :=
  match rows.reverse.find? (fun r => r.date == d) with
  | some r => some (normalizeRow r)
  | none => none

/-- The zero-valued synthetic summary pushed for a date with no entries. -/
def zeroSummary (d : ℤ) : DailySummary := ⟨d, 0, 0, 0, 0, 0⟩

/-- The fill loop
`for (let d = startDate; d <= endDate; d.setDate(d.getDate() + 1))`,
written with an explicit iteration count so the kernel can evaluate it;
fillDates supplies the exact count of the JS loop. -/
def fillGo (rows : List SummaryRow) : ℕ → ℤ → ℤ → List DailySummary
  | 0, _, _ => []
  | n + 1, d, e =>
    if d ≤ e then
      (match dateMapLookup rows d with
       | some s => s
       | none => zeroSummary d) :: fillGo rows n (d + 1) e
    else []

/-- loadTrendData dense fill: one summary per calendar day from startDate
to endDate inclusive, taken from the date map when present and zero-valued
otherwise. -/
def fillDates (rows : List SummaryRow) (d e : ℤ) : List DailySummary :=
  fillGo rows (e + 1 - d).toNat d e

/-- The list of integer days d, d+1, ..., counted. -/
def intRangeGo : ℕ → ℤ → List ℤ
  | 0, _ => []
  | n + 1, d => d :: intRangeGo n (d + 1)

/-- The inclusive list of calendar days from d to e. -/
def intRange (d e : ℤ) : List ℤ := intRangeGo (e + 1 - d).toNat d

/- ===== Helper lemmas ===== -/

lemma jsOr_some_zero (v : ℚ) : jsOr (some v) 0 = v := by
  by_cases h : v = 0 <;> simp [jsOr, h]

lemma goalBadge_spec (p : ℤ) :
    (goalBadge p = GoalBadge.under ↔ p < 80) ∧
    (goalBadge p = GoalBadge.onTrack ↔ 80 ≤ p ∧ p ≤ 110) ∧
    (goalBadge p = GoalBadge.over ↔ 110 < p) := by
  by_cases h1 : p < 80
  · refine ⟨by simp [goalBadge, h1], ?_, ?_⟩
    · simp only [goalBadge, if_pos h1]
      constructor
      · intro h
        exact absurd h (by simp)
      · intro h
        omega
    · simp only [goalBadge, if_pos h1]
      constructor
      · intro h
        exact absurd h (by simp)
      · intro h
        omega
  · by_cases h2 : p ≤ 110
    · refine ⟨?_, ?_, ?_⟩
      · simp only [goalBadge, if_neg h1, if_pos h2]
        constructor
        · intro h
          exact absurd h (by simp)
        · intro h
          omega
      · simp only [goalBadge, if_neg h1, if_pos h2]
        constructor
        · intro _
          omega
        · intro _
          trivial
      · simp only [goalBadge, if_neg h1, if_pos h2]
        constructor
        · intro h
          exact absurd h (by simp)
        · intro h
          omega
    · refine ⟨?_, ?_, ?_⟩
      · simp only [goalBadge, if_neg h1, if_neg h2]
        constructor
        · intro h
          exact absurd h (by simp)
        · intro h
          omega
      · simp only [goalBadge, if_neg h1, if_neg h2]
        constructor
        · intro h
          exact absurd h (by simp)
        · intro h
          omega
      · simp only [goalBadge, if_neg h1, if_neg h2]
        constructor
        · intro _
          omega
        · intro _
          trivial

/- ===== Claim theorems ===== -/

/-- C1: in both backend revisions of extractNutrients, whenever the profile
reached after processing all observations has calories = 0 with some macro
nonzero, the returned calories equal
round(protein * 4 + fat * 9 + carbs * 4); in particular a record with
observations (1003, 20) and (1004, 10) and no energy observation extracts
to {calories: 170, protein: 20, fat: 10, carbs: 0}. -/
theorem extract_calorie_fallback_atwater :
    (∀ r : List UsdaObs,
      (r.foldl usdaStep zeroProfile).calories = 0 →
      ((r.foldl usdaStep zeroProfile).protein ≠ 0 ∨
        (r.foldl usdaStep zeroProfile).fat ≠ 0 ∨
        (r.foldl usdaStep zeroProfile).carbs ≠ 0) →
      (extractNutrientsUsda r).calories =
        (jsRound ((r.foldl usdaStep zeroProfile).protein * 4 +
                  (r.foldl usdaStep zeroProfile).fat * 9 +
                  (r.foldl usdaStep zeroProfile).carbs * 4) : ℚ)) ∧
    (∀ r : List AiObs,
      (r.foldl aiStep zeroProfile).calories = 0 →
      ((r.foldl aiStep zeroProfile).protein ≠ 0 ∨
        (r.foldl aiStep zeroProfile).fat ≠ 0 ∨
        (r.foldl aiStep zeroProfile).carbs ≠ 0) →
      (extractNutrientsAi r).calories =
        (jsRound ((r.foldl aiStep zeroProfile).protein * 4 +
                  (r.foldl aiStep zeroProfile).fat * 9 +
                  (r.foldl aiStep zeroProfile).carbs * 4) : ℚ)) ∧
    extractNutrientsUsda [⟨1003, none, some 20⟩, ⟨1004, none, some 10⟩] = ⟨170, 20, 10, 0⟩ ∧
    extractNutrientsAi [⟨1003, some 20, none⟩, ⟨1004, some 10, none⟩] = ⟨170, 20, 10, 0⟩ := by
  refine ⟨?_, ?_, ?_, ?_⟩
  · intro r h1 h2
    simp only [extractNutrientsUsda, calorieFallback]
    rw [if_pos ⟨h1, h2⟩]
  · intro r h1 h2
    simp only [extractNutrientsAi, calorieFallback]
    rw [if_pos ⟨h1, h2⟩]
  · simp only [extractNutrientsUsda, List.foldl, usdaStep, usdaResolve, overwriteField,
      calorieFallback, jsOr, round1, jsRound, zeroProfile]
    norm_num
  · simp only [extractNutrientsAi, List.foldl, aiStep, aiResolve, maxField,
      calorieFallback, jsOr, round1, jsRound, zeroProfile]
    norm_num

/-- C1 witness: the fallback theorem applied to the concrete
no-energy record, giving 170 calories. -/
theorem extract_calorie_fallback_witness :
    (extractNutrientsUsda [⟨1003, none, some 20⟩, ⟨1004, none, some 10⟩]).calories = 170 := by
  have hpre : ([⟨1003, none, some 20⟩, ⟨1004, none, some 10⟩] : List UsdaObs).foldl
      usdaStep zeroProfile = ⟨0, 20, 10, 0⟩ := by
    simp only [List.foldl, usdaStep, usdaResolve, overwriteField, jsOr, round1, jsRound,
      zeroProfile]
    norm_num
  have h := extract_calorie_fallback_atwater.1
    [⟨1003, none, some 20⟩, ⟨1004, none, some 10⟩] (by rw [hpre]) (by rw [hpre]; norm_num)
  rw [h, hpre]
  norm_num [jsRound]

/-- C3: the goal-status classification computes
percentage = round(total / goal * 100) and the badge is under exactly when
percentage < 80, on-track exactly when 80 <= percentage <= 110, over
exactly when percentage > 110; with the spec's three concrete examples at
the component's goal of 2000. -/
theorem classify_thresholds :
    ∀ total goal : ℚ, 0 < goal →
      (classify total goal).percentage = jsRound (total / goal * 100) ∧
      ((classify total goal).status = GoalBadge.under ↔
        (classify total goal).percentage < 80) ∧
      ((classify total goal).status = GoalBadge.onTrack ↔
        (80 ≤ (classify total goal).percentage ∧ (classify total goal).percentage ≤ 110)) ∧
      ((classify total goal).status = GoalBadge.over ↔
        110 < (classify total goal).percentage) ∧
      classify 1500 2000 = ⟨75, GoalBadge.under⟩ ∧
      classify 1900 2000 = ⟨95, GoalBadge.onTrack⟩ ∧
      classify 2300 2000 = ⟨115, GoalBadge.over⟩ := by
  intro total goal _
  have h := goalBadge_spec (goalPercentage total goal)
  refine ⟨rfl, h.1, h.2.1, h.2.2, ?_, ?_, ?_⟩ <;>
    · simp only [classify, goalPercentage, goalBadge, jsRound]
      norm_num

/-- C3 witness: the classification theorem applied at
total = 1500, goal = 2000. -/
theorem classify_thresholds_witness :
    classify 1500 2000 = ⟨75, GoalBadge.under⟩ ∧
    (classify 1500 2000).percentage = jsRound ((1500 : ℚ) / 2000 * 100) := by
  have h := classify_thresholds 1500 2000 (by norm_num)
  exact ⟨h.2.2.2.2.1, h.1⟩

/-- C4: identifier 208 and identifier 1008 both resolve to calories in the
ai.js and shell.nix revisions, and a record whose only observation is
(208, 95) extracts to {calories: 95, protein: 0, fat: 0, carbs: 0} there;
the usda.js revision, whose map omits 208, extracts the all-zero profile
from the same record. -/
theorem energy_id_208_divergence :
    extractNutrientsUsda [⟨208, none, some 95⟩] = zeroProfile ∧
    extractNutrientsAi [⟨208, some 95, none⟩] = ⟨95, 0, 0, 0⟩ ∧
    extractNutrientsShell [⟨208, some 95⟩] = ⟨95, 0, 0, 0⟩ ∧
    usdaResolve 208 = none ∧
    aiResolve 208 = aiResolve 1008 := by
  refine ⟨?_, ?_, ?_, by decide, by decide⟩
  · simp only [extractNutrientsUsda, List.foldl, usdaStep, usdaResolve, overwriteField,
      calorieFallback, jsOr, round1, jsRound, zeroProfile]
    norm_num
  · simp only [extractNutrientsAi, List.foldl, aiStep, aiResolve, maxField,
      calorieFallback, jsOr, round1, jsRound, zeroProfile]
    norm_num
  · simp only [extractNutrientsShell, List.foldl, shellStep, shellResolve,
      calorieFallback, jsOr, round1, jsRound, zeroProfile]
    norm_num

/-- C8 counterexample: in the ai.js revision a fiber (291) observation is
added to carbs even when carbs is already nonzero at the moment it is
processed: after (205, 30) then (291, 5), carbs is 35, not 30. -/
theorem ai_fiber_added_unconditionally :
    (extractNutrientsAi [⟨205, some 30, none⟩, ⟨291, some 5, none⟩]).carbs = 35 ∧
    (35 : ℚ) ≠ 30 := by
  constructor
  · simp only [extractNutrientsAi, List.foldl, aiStep, aiResolve, maxField,
      calorieFallback, jsOr, round1, jsRound, zeroProfile]
    norm_num
  · norm_num

/-- C8 (amended): in the shell.nix revision of extractNutrients a
dietary-fiber observation (identifier 291) leaves carbs unchanged whenever
carbs is nonzero at the moment it is processed, and is added to carbs when
carbs is still exactly 0; the ai.js revision instead adds fiber
unconditionally. -/
theorem shell_fiber_only_when_carbs_zero :
    ∀ (st : NutrientProfile) (o : ShellObs) (v : ℚ),
      shellResolve o.nutrientNumber = some ShellField.fiber →
      (st.carbs ≠ 0 → shellStep st o = st) ∧
      (o.value = some v → 0 ≤ v → st.carbs = 0 →
        shellStep st o = { st with carbs := st.carbs + round1 v }) := by
  intro st o v hres
  constructor
  · intro hc
    simp only [shellStep, hres]
    cases hv : o.value with
    | none => rfl
    | some w =>
      simp only [if_neg hc]
      split <;> rfl
  · intro hval h0 hc
    simp only [shellStep, hres, hval, jsOr_some_zero]
    rw [if_pos h0, if_pos hc]

/-- C8 witness: the amended theorem applied to a fiber observation of 5
against carbs = 30 (unchanged) and against carbs = 0 (added). -/
theorem shell_fiber_witness :
    shellStep ⟨0, 0, 0, 30⟩ ⟨291, some 5⟩ = ⟨0, 0, 0, 30⟩ ∧
    shellStep zeroProfile ⟨291, some 5⟩ =
      { zeroProfile with carbs := zeroProfile.carbs + round1 5 } := by
  exact ⟨(shell_fiber_only_when_carbs_zero ⟨0, 0, 0, 30⟩ ⟨291, some 5⟩ 5 (by decide)).1
           (by norm_num),
         (shell_fiber_only_when_carbs_zero zeroProfile ⟨291, some 5⟩ 5 (by decide)).2
           rfl (by norm_num) rfl⟩

/-- C10: the backend quantity scaler returns null for a null nutrient
profile, for every quantity — in particular it does not fabricate a
zero-valued profile, and as a total function it cannot throw. -/
theorem adjustNutrients_null :
    ∀ q : ℚ, adjustNutrients none q = none := by
  intro q
  rfl

lemma getAdjusted_of_none (p : NutrientProfile) (q : String)
    (h : findWeight (q.toList.map Char.toLower) = none) :
    getAdjustedNutrition p q = p := by
  unfold getAdjustedNutrition
  rw [h]

lemma getAdjusted_of_some (p : NutrientProfile) (q : String)
    (ip fp : List Char) (u : WeightUnit)
    (h : findWeight (q.toList.map Char.toLower) = some (ip, fp, u)) :
    getAdjustedNutrition p q = scaleProfile p (numValue ip fp * unitMult u) := by
  unfold getAdjustedNutrition
  rw [h]

/-- C5: for every profile and every quantity string in which the weight
regex finds no match (no number followed by a g/kg/mg token with a word
boundary, case-insensitively), getAdjustedNutrition returns the profile
unchanged; in particular for "1 slice" and "2 cups". The scaler is a total
function: unparsable input yields the identity, never an error. -/
theorem scale_identity_without_weight_token :
    (∀ (p : NutrientProfile) (q : String),
      findWeight (q.toList.map Char.toLower) = none →
      getAdjustedNutrition p q = p) ∧
    (∀ p : NutrientProfile,
      getAdjustedNutrition p "1 slice" = p ∧ getAdjustedNutrition p "2 cups" = p) :=
  ⟨getAdjusted_of_none,
   fun p => ⟨getAdjusted_of_none p "1 slice" (by decide),
             getAdjusted_of_none p "2 cups" (by decide)⟩⟩

/-- C5 witness: the identity theorem applied to a concrete profile and the
weightless quantity string "half a bowl". -/
theorem scale_identity_witness :
    getAdjustedNutrition ⟨250, 12, 8, 30⟩ "half a bowl" = ⟨250, 12, 8, 30⟩ :=
  scale_identity_without_weight_token.1 ⟨250, 12, 8, 30⟩ "half a bowl" (by decide)

lemma numValue_200 : numValue ['2', '0', '0'] [] = 200 := by
  have hd : digitsToNat ['2', '0', '0'] = 200 := by decide
  have hnil : digitsToNat [] = 0 := rfl
  rw [numValue, hd, hnil]
  norm_num

lemma numValue_500 : numValue ['5', '0', '0'] [] = 500 := by
  have hd : digitsToNat ['5', '0', '0'] = 500 := by decide
  have hnil : digitsToNat [] = 0 := rfl
  rw [numValue, hd, hnil]
  norm_num

lemma numValue_0_5 : numValue ['0'] ['5'] = 1 / 2 := by
  have hd0 : digitsToNat ['0'] = 0 := by decide
  have hd5 : digitsToNat ['5'] = 5 := by decide
  rw [numValue, hd0, hd5]
  norm_num

/-- C6 counterexample: the frontend scaler rounds calories to one decimal
place, not to the nearest integer: on a per-100g profile with calories
95.3, the quantity "200g" yields 190.6 calories, while rounding to the
nearest integer would give 191. -/
theorem scaler_calorie_rounding_refuted :
    (getAdjustedNutrition ⟨953 / 10, 0, 0, 0⟩ "200g").calories = 953 / 5 ∧
    (jsRound ((953 / 10 : ℚ) * 2) : ℚ) = 191 ∧
    (953 / 5 : ℚ) ≠ 191 := by
  have hm := getAdjusted_of_some ⟨953 / 10, 0, 0, 0⟩ "200g" ['2', '0', '0'] [] WeightUnit.g
    (by decide)
  rw [numValue_200] at hm
  refine ⟨?_, ?_, by norm_num⟩
  · rw [hm]
    simp only [scaleProfile, unitMult, round1, jsRound]
    norm_num
  · simp only [jsRound]
    norm_num

/-- C6 (amended): for a weight-bearing quantity string the frontend scaler
multiplies every field by ratio = grams / 100 with kg converted by 1000
and mg by 1/1000, rounding each of the four fields — calories included —
to one decimal place, each field independently; "0.5kg" scales exactly as
"500g"; the backend adjustNutrients, whose quantity is already numeric
grams, is the variant that rounds calories to the nearest integer. -/
theorem scaler_ratio_and_rounding :
    (∀ p : NutrientProfile,
      getAdjustedNutrition p "200g" =
        ⟨round1 (p.calories * 2), round1 (p.protein * 2),
         round1 (p.fat * 2), round1 (p.carbs * 2)⟩) ∧
    (∀ p : NutrientProfile,
      getAdjustedNutrition p "0.5kg" = getAdjustedNutrition p "500g") ∧
    (∀ p : NutrientProfile,
      adjustNutrients (some p) 200 =
        some ⟨(jsRound (p.calories * 2) : ℚ), round1 (p.protein * 2),
              round1 (p.fat * 2), round1 (p.carbs * 2)⟩) := by
  refine ⟨?_, ?_, ?_⟩
  · intro p
    have hm := getAdjusted_of_some p "200g" ['2', '0', '0'] [] WeightUnit.g (by decide)
    rw [numValue_200] at hm
    rw [hm]
    simp only [scaleProfile, unitMult]
    norm_num
  · intro p
    have h1 := getAdjusted_of_some p "0.5kg" ['0'] ['5'] WeightUnit.kg (by decide)
    have h2 := getAdjusted_of_some p "500g" ['5', '0', '0'] [] WeightUnit.g (by decide)
    rw [numValue_0_5] at h1
    rw [numValue_500] at h2
    rw [h1, h2]
    norm_num [unitMult]
  · intro p
    simp only [adjustNutrients]
    norm_num

/- ===== C7: duplicate observations and the running maximum ===== -/

/-- The contribution of one observation to a canonical field in the ai.js
revision loop: present when the identifier resolves to that field, the
amount guard passes and the parsed value is positive; fiber-tagged carb
observations are excluded (they are added, not maximized). -/
def aiObsVal (f : NutrientField) (o : AiObs) : Option ℚ :=
  match aiResolve o.number with
  | none => none
  | some f2 =>
    match o.amount with
    | none => none
    | some _ =>
      let v := jsOr o.amount (jsOr o.value 0)
      if 0 < v then
        if f2 = NutrientField.carbs ∧ o.number = 291 then none
        else if f2 = f then some (round1 v) else none
      else none

/-- All observed (rounded) values of one canonical field in a record, in
processing order. -/
def aiFieldVals (f : NutrientField) (obs : List AiObs) : List ℚ :=
  obs.filterMap (aiObsVal f)

lemma field_maxField_same (st : NutrientProfile) (f : NutrientField) (x : ℚ) :
    (maxField st f x).field f = max (st.field f) x := by
  cases f <;> rfl

lemma field_maxField_ne (st : NutrientProfile) (f2 f : NutrientField) (x : ℚ)
    (h : f2 ≠ f) : (maxField st f2 x).field f = st.field f := by
  cases f2 <;> cases f <;> first | rfl | exact absurd rfl h

lemma field_set_carbs (st : NutrientProfile) (x : ℚ) (f : NutrientField)
    (h : f ≠ NutrientField.carbs) :
    ({ st with carbs := x } : NutrientProfile).field f = st.field f := by
  cases f <;> first | rfl | exact absurd rfl h

lemma aiStep_field_of_none (st : NutrientProfile) (o : AiObs) (f : NutrientField)
    (hf : f ≠ NutrientField.carbs) (h : aiObsVal f o = none) :
    (aiStep st o).field f = st.field f := by
  unfold aiStep
  unfold aiObsVal at h
  cases hres : aiResolve o.number with
  | none => rfl
  | some f2 =>
    rw [hres] at h
    cases ham : o.amount with
    | none => rfl
    | some a =>
      rw [ham] at h
      dsimp only at h ⊢
      by_cases hpos : 0 < jsOr (some a) (jsOr o.value 0)
      · rw [if_pos hpos] at h ⊢
        by_cases hfib : f2 = NutrientField.carbs ∧ o.number = 291
        · rw [if_pos hfib]
          exact field_set_carbs st _ f hf
        · rw [if_neg hfib] at h ⊢
          by_cases hef : f2 = f
          · rw [if_pos hef] at h
            exact absurd h (by simp)
          · exact field_maxField_ne st f2 f _ hef
      · rw [if_neg hpos]
  
lemma aiStep_field_of_some (st : NutrientProfile) (o : AiObs) (f : NutrientField)
    (x : ℚ) (h : aiObsVal f o = some x) :
    (aiStep st o).field f = max (st.field f) x := by
  unfold aiStep
  unfold aiObsVal at h
  cases hres : aiResolve o.number with
  | none => rw [hres] at h; exact absurd h (by simp)
  | some f2 =>
    rw [hres] at h
    cases ham : o.amount with
    | none => rw [ham] at h; exact absurd h (by simp)
    | some a =>
      rw [ham] at h
      dsimp only at h ⊢
      by_cases hpos : 0 < jsOr (some a) (jsOr o.value 0)
      · rw [if_pos hpos] at h ⊢
        by_cases hfib : f2 = NutrientField.carbs ∧ o.number = 291
        · rw [if_pos hfib] at h
          exact absurd h (by simp)
        · rw [if_neg hfib] at h ⊢
          by_cases hef : f2 = f
          · rw [if_pos hef] at h
            subst hef
            rw [Option.some_inj] at h
            rw [← h]
            exact field_maxField_same st f2 _
          · rw [if_neg hef] at h
            exact absurd h (by simp)
      · rw [if_neg hpos] at h
        exact absurd h (by simp)

lemma aiFold_field_max (f : NutrientField) (hf : f ≠ NutrientField.carbs) :
    ∀ (obs : List AiObs) (st : NutrientProfile),
      (obs.foldl aiStep st).field f = (aiFieldVals f obs).foldl max (st.field f) := by
  intro obs
  induction obs with
  | nil => intro st; rfl
  | cons o rest ih =>
    intro st
    rw [List.foldl_cons, ih (aiStep st o)]
    cases hov : aiObsVal f o with
    | none =>
      have h2 : aiFieldVals f (o :: rest) = aiFieldVals f rest :=
        List.filterMap_cons_none hov
      rw [aiStep_field_of_none st o f hf hov, h2]
    | some x =>
      have h2 : aiFieldVals f (o :: rest) = x :: aiFieldVals f rest :=
        List.filterMap_cons_some hov
      rw [aiStep_field_of_some st o f x hov, h2, List.foldl_cons]

lemma calorieFallback_protein (st : NutrientProfile) :
    (calorieFallback st).protein = st.protein := by
  unfold calorieFallback
  split <;> rfl

lemma calorieFallback_fat (st : NutrientProfile) :
    (calorieFallback st).fat = st.fat := by
  unfold calorieFallback
  split <;> rfl

lemma calorieFallback_of_calories_ne (st : NutrientProfile) (h : st.calories ≠ 0) :
    calorieFallback st = st := by
  unfold calorieFallback
  exact if_neg (fun hc => h hc.1)

/-- C7 (amended): in the ai.js search revision of extractNutrients the
extracted protein and fat each equal the maximum (with floor 0) of all
rounded observed values resolving to that field, and so does calories
whenever some energy observation is positive — not merely the value of the
last observation processed. In the usda.js revision the last observation
wins instead. -/
theorem ai_duplicate_observations_take_max :
    ∀ r : List AiObs,
      (extractNutrientsAi r).protein =
        (aiFieldVals NutrientField.protein r).foldl max 0 ∧
      (extractNutrientsAi r).fat =
        (aiFieldVals NutrientField.fat r).foldl max 0 ∧
      ((aiFieldVals NutrientField.calories r).foldl max 0 ≠ 0 →
        (extractNutrientsAi r).calories =
          (aiFieldVals NutrientField.calories r).foldl max 0) := by
  intro r
  have hp := aiFold_field_max NutrientField.protein (by simp) r zeroProfile
  have hfa := aiFold_field_max NutrientField.fat (by simp) r zeroProfile
  have hc := aiFold_field_max NutrientField.calories (by simp) r zeroProfile
  refine ⟨?_, ?_, ?_⟩
  · show (calorieFallback (r.foldl aiStep zeroProfile)).protein = _
    rw [calorieFallback_protein]
    exact hp
  · show (calorieFallback (r.foldl aiStep zeroProfile)).fat = _
    rw [calorieFallback_fat]
    exact hfa
  · intro hne
    have hcal : (r.foldl aiStep zeroProfile).calories =
        (aiFieldVals NutrientField.calories r).foldl max 0 := hc
    show (calorieFallback (r.foldl aiStep zeroProfile)).calories = _
    rw [calorieFallback_of_calories_ne _ (by rw [hcal]; exact hne), hcal]

/-- C7 counterexample: in usda.js extractNutrients two protein
observations 30 then 10 extract protein 10 — the last observation
processed — not the maximum 30. -/
theorem usda_last_observation_wins :
    (extractNutrientsUsda [⟨1003, none, some 30⟩, ⟨1003, none, some 10⟩]).protein = 10 ∧
    max (round1 30) (round1 10) = 30 ∧
    (10 : ℚ) ≠ 30 := by
  refine ⟨?_, ?_, by norm_num⟩
  · simp only [extractNutrientsUsda, List.foldl, usdaStep, usdaResolve, overwriteField,
      calorieFallback, jsOr, round1, jsRound, zeroProfile]
    norm_num
  · simp only [round1, jsRound]
    norm_num

/-- C7 witness: the running-max theorem applied to a record with two
energy observations 50 and 95, whose extracted calories are their
maximum. -/
theorem ai_duplicate_max_witness :
    (extractNutrientsAi [⟨1008, some 50, none⟩, ⟨1008, some 95, none⟩]).calories =
      (aiFieldVals NutrientField.calories
        [⟨1008, some 50, none⟩, ⟨1008, some 95, none⟩]).foldl max 0 := by
  refine (ai_duplicate_observations_take_max _).2.2 ?_
  simp only [aiFieldVals, List.filterMap_cons, List.filterMap_nil, aiObsVal, aiResolve,
    jsOr, round1, jsRound, List.foldl]
  norm_num

/- ===== C2 and C9: the dense daily series ===== -/

lemma dateMapLookup_date (rows : List SummaryRow) (d : ℤ) (s : DailySummary)
    (h : dateMapLookup rows d = some s) : s.date = d := by
  unfold dateMapLookup at h
  cases hf : rows.reverse.find? (fun r => r.date == d) with
  | none => rw [hf] at h; exact absurd h (by simp)
  | some r =>
    rw [hf] at h
    have hr := List.find?_some hf
    simp only [beq_iff_eq] at hr
    rw [Option.some_inj] at h
    rw [← h]
    simp [normalizeRow, hr]

lemma fillGo_length : ∀ (n : ℕ) (rows : List SummaryRow) (d e : ℤ),
    n = (e + 1 - d).toNat → (fillGo rows n d e).length = n := by
  intro n
  induction n with
  | zero => intro rows d e _; rfl
  | succ k ih =>
    intro rows d e h
    have hd : d ≤ e := by omega
    simp only [fillGo]
    rw [if_pos hd, List.length_cons, ih rows (d + 1) e (by omega)]

lemma fillGo_dates : ∀ (n : ℕ) (rows : List SummaryRow) (d e : ℤ),
    n = (e + 1 - d).toNat →
    (fillGo rows n d e).map DailySummary.date = intRangeGo n d := by
  intro n
  induction n with
  | zero => intro rows d e _; rfl
  | succ k ih =>
    intro rows d e h
    have hd : d ≤ e := by omega
    simp only [fillGo, intRangeGo]
    rw [if_pos hd, List.map_cons, ih rows (d + 1) e (by omega)]
    congr 1
    cases hlk : dateMapLookup rows d with
    | none => rfl
    | some s => exact dateMapLookup_date rows d s hlk

lemma fillGo_mem_zero : ∀ (n : ℕ) (rows : List SummaryRow) (d e x : ℤ),
    n = (e + 1 - d).toNat → d ≤ x → x ≤ e → dateMapLookup rows x = none →
    zeroSummary x ∈ fillGo rows n d e := by
  intro n
  induction n with
  | zero => intro rows d e x h h1 h2 _; omega
  | succ k ih =>
    intro rows d e x h h1 h2 h3
    have hd : d ≤ e := by omega
    simp only [fillGo]
    rw [if_pos hd]
    by_cases hx : x = d
    · subst hx
      rw [h3]
      exact List.mem_cons_self _ _
    · exact List.mem_cons_of_mem _ (ih rows (d + 1) e x (by omega) (by omega) h2 h3)

lemma intRangeGo_chain : ∀ (n : ℕ) (d : ℤ), List.Chain' (· < ·) (intRangeGo n d) := by
  intro n
  induction n with
  | zero => intro d; simp [intRangeGo]
  | succ k ih =>
    intro d
    cases k with
    | zero => simp [intRangeGo]
    | succ m =>
      simp only [intRangeGo]
      rw [List.chain'_cons]
      refine ⟨by omega, ?_⟩
      have h := ih (d + 1)
      simpa only [intRangeGo] using h

/-- C2: the dense daily series contains exactly one summary per calendar
day of the inclusive range: its length is the number of days, its dates
are exactly startDate..endDate, and every day whose date has no row in the
backend data carries the zero-valued summary with entryCount 0. -/
theorem dense_series_one_per_day :
    ∀ (rows : List SummaryRow) (d e : ℤ), d ≤ e →
      (fillDates rows d e).length = (e - d + 1).toNat ∧
      (fillDates rows d e).map DailySummary.date = intRange d e ∧
      (∀ x, d ≤ x → x ≤ e → dateMapLookup rows x = none →
        zeroSummary x ∈ fillDates rows d e) := by
  intro rows d e _
  refine ⟨?_, ?_, ?_⟩
  · rw [fillDates, fillGo_length (e + 1 - d).toNat rows d e rfl]
    omega
  · rw [fillDates, intRange]
    exact fillGo_dates _ rows d e rfl
  · intro x h1 h2 h3
    rw [fillDates]
    exact fillGo_mem_zero _ rows d e x rfl h1 h2 h3

/-- C2 witness: the density theorem applied to the empty entry list over a
three-day range: three summaries, with day 1 zero-valued. -/
theorem dense_series_witness :
    (fillDates [] 0 2).length = 3 ∧ zeroSummary 1 ∈ fillDates [] 0 2 := by
  have h := dense_series_one_per_day [] 0 2 (by norm_num)
  exact ⟨h.1.trans (by decide), h.2.2 1 (by norm_num) (by norm_num) rfl⟩

/-- C9 counterexample: the dense series over days 0..2 built from one row
dated day 0 lists its dates ascending, 0 then 1 then 2 — not descending as
claimed. -/
theorem dense_series_not_descending :
    (fillDates [⟨0, some 500, none, none, none, some 1⟩] 0 2).map DailySummary.date
        = [0, 1, 2] ∧
    ([0, 1, 2] : List ℤ) ≠ [2, 1, 0] := by
  constructor
  · decide
  · decide

/-- C9 (amended): the dense daily series built by loadTrendData is ordered
ascending by date — its dates are exactly startDate..endDate in increasing
order (the backend sparse summary rows, by contrast, arrive ordered
descending, and the detailed-data table view reverses the dense series);
the scenario with one row dated day 0 over the three-day range yields
summaries dated 0, 1, 2 with days 1 and 2 zero-valued. -/
theorem dense_series_ascending :
    (∀ (rows : List SummaryRow) (d e : ℤ),
      (fillDates rows d e).map DailySummary.date = intRange d e ∧
      List.Chain' (· < ·) ((fillDates rows d e).map DailySummary.date)) ∧
    fillDates [⟨0, some 500, none, none, none, some 1⟩] 0 2 =
      [⟨0, 500, 0, 0, 0, 1⟩, zeroSummary 1, zeroSummary 2] := by
  constructor
  · intro rows d e
    have hd : (fillDates rows d e).map DailySummary.date = intRange d e := by
      rw [fillDates, intRange]
      exact fillGo_dates _ rows d e rfl
    refine ⟨hd, ?_⟩
    rw [hd, intRange]
    exact intRangeGo_chain _ d
  · decide
